import Mathlib

/-!
Shallow embedding of the budgeting dashboard's core calculations
(`src/budgetApp.py`): dashboard aggregation, saving-goal cadence math,
monthly-plan reconciliation, and the form submit handlers.

Conventions of the embedding:
* Python floats are modelled as `ℚ` (the computations are sums, differences
  and divisions of user-entered decimals; `30.44` is `3044/100`).
* `datetime` values are modelled as a calendar date plus a time of day in
  microseconds (`datetime.today()` carries a time of day); `date` values are
  plain calendar dates.  Subtraction of datetimes uses the
  proleptic-Gregorian day ordinal (`daysFromCivil`) and, as in Python's
  `timedelta.days`, floors toward minus infinity.
* Pandas `NaN`-able cells are modelled as `Option`; `pd.notna` is `Option.isSome`.
* The Thai/English display translation of category labels (`CATEGORY_MAP`)
  is a bijective renaming applied on the way into and out of the editors;
  it is omitted here, i.e. rows carry canonical category strings.
-/

namespace BudgetApp

/-- A calendar date (proleptic Gregorian), as in Python's `datetime.date`. -/
structure Date where
  year : Int
  month : Int
  day : Int
deriving DecidableEq, Repr

/-- Day ordinal of a civil date (days since 1970-01-01), the standard
civil-from-days inverse used by `datetime` arithmetic. -/
def daysFromCivil (y m d : Int) : Int :=
  let y' := if m ≤ 2 then y - 1 else y
  let era := Int.fdiv y' 400
  let yoe := y' - era * 400
  let mp := Int.fmod (m + 9) 12
  let doy := Int.fdiv (153 * mp + 2) 5 + d - 1
  let doe := yoe * 365 + Int.fdiv yoe 4 - Int.fdiv yoe 100 + doy
  era * 146097 + doe - 719468

/-- Ordinal of a `Date`. -/
def Date.ordinal (d : Date) : Int :=
  daysFromCivil d.year d.month d.day

/-- `(a - b).days` for two Python `date`s: an exact whole-day difference. -/
def dateDiffDays (a b : Date) : Int :=
  a.ordinal - b.ordinal

/-- A `datetime`: a date plus the time of day already elapsed, in
microseconds (`datetime.today()` has a nonzero time of day). -/
structure DateTime where
  year : Int
  month : Int
  day : Int
  usec : Nat
deriving DecidableEq, Repr

/-- The date part of a datetime (`.date()`). -/
def DateTime.date (t : DateTime) : Date :=
  ⟨t.year, t.month, t.day⟩

/-- Microseconds per day. -/
def usecPerDay : Int := 86400000000

/-- `(a - b).days` where `a` is a midnight datetime (`datetime(y, m, d)`)
and `b` a full datetime: Python's `timedelta.days` is the floor division of
the total microsecond difference by a day. -/
def timedeltaDaysFromMidnight (a : Date) (b : DateTime) : Int :=
  Int.fdiv (dateDiffDays a b.date * usecPerDay - (b.usec : Int)) usecPerDay

/-- One row of the unified transaction ledger (`df_combined`): a user
transaction or a materialized fixed expense.  Only `Type` and `Amount`
are read by the aggregation. -/
structure Txn where
  date : Date
  ttype : String
  category : String
  amount : ℚ
  note : String
deriving DecidableEq, Repr

/-- One row of the fixed-expenses table (`df_fixed_expenses`). -/
structure FixedExpense where
  name : String
  amount : ℚ
deriving DecidableEq, Repr

/-- The payday anchor of `calculate_dashboard_metrics`: day 25 of the
current month, or of the next month (December rolling into January of the
next year) when today's day-of-month is past 25. -/
def paydayAnchor (today : DateTime) : Date :=
  if today.day > 25 then
    if today.month = 12 then ⟨today.year + 1, 1, 25⟩
    else ⟨today.year, today.month + 1, 25⟩
  else
    ⟨today.year, today.month, 25⟩

/-- `days_until_25th` before the safeguard clamp: the `timedelta.days`
from `today` to the payday anchor. -/
def daysUntilPayday (today : DateTime) : Int :=
  timedeltaDaysFromMidnight (paydayAnchor today) today

/-- `days_until_25th` after the `<= 0 → 1` safeguard. -/
def clampedDaysUntilPayday (today : DateTime) : Int :=
  let d := daysUntilPayday today
  if d ≤ 0 then 1 else d

/-- `suggested_daily`: balance over the clamped day count, floored at 0. -/
def suggestedDailySpend (balance : ℚ) (today : DateTime) : ℚ :=
  let s := balance / (clampedDaysUntilPayday today : ℚ)
  if s < 0 then 0 else s

/-- Result record of `calculate_dashboard_metrics`. -/
structure DashboardMetrics where
  income : ℚ
  expense : ℚ
  balance : ℚ
  suggestedDaily : ℚ
  totalFixed : ℚ
  remainingAfterFixed : ℚ
deriving DecidableEq, Repr

/-- `calculate_dashboard_metrics(df_combined_data, df_fixed_expenses_data)`
with `today = datetime.today()` made an explicit argument.  The
`if not df.empty` branches of the source are kept. -/
def calculate_dashboard_metrics (ledger : List Txn) (fixed : List FixedExpense)
    (today : DateTime) : DashboardMetrics :=
  let income := if ledger = [] then 0 else
    ((ledger.filter (fun e => e.ttype = "Income")).map (·.amount)).sum
  let expense := if ledger = [] then 0 else
    ((ledger.filter (fun e => e.ttype = "Expense")).map (·.amount)).sum
  let balance := if ledger = [] then 0 else income - expense
  let totalFixed := if fixed = [] then 0 else (fixed.map (·.amount)).sum
  { income := income
    expense := expense
    balance := balance
    suggestedDaily := suggestedDailySpend balance today
    totalFixed := totalFixed
    remainingAfterFixed := balance - totalFixed }

/-! ### Saving-goal calculator (`add_new_goal_form`, `edit_delete_goals_section`,
`display_saving_goals`) -/

/-- The recomputation of `SavingAmountPerFreq` in the Save-Goal-Edits handler
(`edit_delete_goals_section`): zero-initialized, overwritten only when the
target date is in the future and the goal is not yet met. -/
def recomputeSavingAmountPerFreq (goalAmount currentSaved : ℚ) (freq : String)
    (daysToTarget : Int) : ℚ :=
  if daysToTarget > 0 ∧ goalAmount > currentSaved then
    let remaining := goalAmount - currentSaved
    if freq = "Daily" then remaining / (daysToTarget : ℚ)
    else if freq = "Weekly" then
      let weeks := (daysToTarget : ℚ) / 7
      if weeks > 0 then remaining / weeks else remaining
    else if freq = "Monthly" then
      let months := (daysToTarget : ℚ) / (3044 / 100)
      if months > 0 then remaining / months else remaining
    else 0
  else 0

/-- The `SavingAmountPerFreq` preview of `add_new_goal_form` (the goal starts
with `CurrentSaved = 0`, so `remaining_to_save` is the goal amount; the
unreachable Monthly zero-guard falls back to `0.0` here, not `remaining`). -/
def addFormSavingAmountPerFreq (goalAmount : ℚ) (freq : String)
    (daysToTarget : Int) : ℚ :=
  if daysToTarget > 0 ∧ goalAmount > 0 then
    if freq = "Daily" then goalAmount / (daysToTarget : ℚ)
    else if freq = "Weekly" then
      let weeks := (daysToTarget : ℚ) / 7
      if weeks > 0 then goalAmount / weeks else goalAmount
    else if freq = "Monthly" then
      let months := (daysToTarget : ℚ) / (3044 / 100)
      if months > 0 then goalAmount / months else 0
    else 0
  else 0

/-- `progress_percent` of `display_saving_goals`: the ratio only when the
goal amount is positive, then clamped into `[0, 100]`. -/
def progressPercent (currentSaved goalAmount : ℚ) : ℚ :=
  let p := if goalAmount > 0 then currentSaved / goalAmount * 100 else 0
  min 100 (max 0 p)

/-- A row of the goals `data_editor` (dynamic rows may leave cells empty,
i.e. `NaN`; `pd.notna` is `Option.isSome`). -/
structure GoalRow where
  goalName : Option String
  goalAmount : Option ℚ
  emoji : String
  currentSaved : ℚ
  targetDate : Option Date
  savingFrequency : String
  savingAmountPerFreq : ℚ
deriving DecidableEq, Repr

/-- A row as written back to the `SavingGoals` sheet. -/
structure SavedGoalRow where
  goalName : String
  goalAmount : ℚ
  emoji : String
  currentSaved : ℚ
  targetDate : Date
  savingFrequency : String
  savingAmountPerFreq : ℚ
deriving DecidableEq, Repr

/-- One iteration of the app's rewrite loops: append the processed row when
the row is kept, else continue. -/
def appendIfSome {α β : Type} (f : α → Option β) (acc : List β) (a : α) : List β :=
  match f a with
  | some b => acc ++ [b]
  | none => acc

/-- Loop body of the Save-Goal-Edits handler: a row survives the rewrite
exactly when `GoalName`, `GoalAmount` and `TargetDate` are all present,
and its `SavingAmountPerFreq` is recomputed from today's date. -/
def saveGoalRow (today : Date) (row : GoalRow) : Option SavedGoalRow :=
  match row.goalName, row.goalAmount, row.targetDate with
  | some name, some amt, some td =>
      some ⟨name, amt, row.emoji, row.currentSaved, td, row.savingFrequency,
            recomputeSavingAmountPerFreq amt row.currentSaved row.savingFrequency
              (dateDiffDays td today)⟩
  | _, _, _ => none

/-- The Save-Goal-Edits rewrite loop (`edit_delete_goals_section`): the rows
appended to the cleared `SavingGoals` sheet, in order. -/
def saveGoalEdits (today : Date) (rows : List GoalRow) : List SavedGoalRow :=
  rows.foldl (appendIfSome (saveGoalRow today)) []

/-- The transformation the rewrite applies to a kept row (defaults are
irrelevant: kept rows have all three fields present). -/
def goalRowTransform (today : Date) (row : GoalRow) : SavedGoalRow :=
  let amt := row.goalAmount.getD 0
  let td := row.targetDate.getD ⟨1970, 1, 1⟩
  ⟨row.goalName.getD "", amt, row.emoji, row.currentSaved, td, row.savingFrequency,
   recomputeSavingAmountPerFreq amt row.currentSaved row.savingFrequency
     (dateDiffDays td today)⟩

/-! ### Monthly plan reconciler (tab4) -/

/-- One row of the `MonthlyPlans` table. -/
structure PlanItem where
  monthYear : Date
  itemType : String
  itemName : String
  amount : ℚ
  category : String
  isPaid : Bool
  datePaid : Option DateTime
deriving DecidableEq, Repr

/-- `fixed_expenses_to_add`: a synthetic unpaid Expense row for each fixed
expense with no `(ItemName, Category = "Fixed Expense")` match among the
bucket's existing planned expenses. -/
def fixedExpensesToAdd (month : Date) (existingExpenses : List PlanItem)
    (fixedList : List FixedExpense) : List PlanItem :=
  fixedList.filterMap (fun f =>
    if ∃ it ∈ existingExpenses, it.itemName = f.name ∧ it.category = "Fixed Expense"
    then none
    else some ⟨month, "Expense", f.name, f.amount, "Fixed Expense", false, none⟩)

/-- `initial_planned_expenses_for_editor`: the bucket's existing planned
expenses followed by the projected fixed expenses. -/
def mergeFixedIntoBucket (month : Date) (existingExpenses : List PlanItem)
    (fixedList : List FixedExpense) : List PlanItem :=
  existingExpenses ++ fixedExpensesToAdd month existingExpenses fixedList

/-- A row of the planned-expenses `data_editor` (`ItemName` and `Amount`
may be empty, `IsPaid` is display-only in this editor). -/
structure EditedExpenseRow where
  itemName : Option String
  amount : Option ℚ
  category : String
  isPaid : Bool
deriving DecidableEq, Repr

/-- `existing_item` lookup of the Save-Planned-Expenses handler: the first
row of the month's prior snapshot matching on `(ItemName, Category)`. -/
def lookupPriorItem (snapshot : List PlanItem) (name category : String) :
    Option PlanItem :=
  snapshot.find? (fun it => decide (it.itemName = name ∧ it.category = category))

/-- Loop body of the Save-Planned-Expenses handler: rows with a name and a
positive amount are kept, with `IsPaid`/`DatePaid` carried over from the
first `(ItemName, Category)` match in the prior snapshot, else reset. -/
def savePlannedRow (month : Date) (snapshot : List PlanItem)
    (row : EditedExpenseRow) : Option PlanItem :=
  match row.itemName, row.amount with
  | some name, some amt =>
      if amt > 0 then
        match lookupPriorItem snapshot name row.category with
        | some it => some ⟨month, "Expense", name, amt, row.category, it.isPaid, it.datePaid⟩
        | none => some ⟨month, "Expense", name, amt, row.category, false, none⟩
      else none
  | _, _ => none

/-- `updated_expense_plan_rows` of the Save-Planned-Expenses handler. -/
def savePlannedExpenseRows (month : Date) (snapshot : List PlanItem)
    (edited : List EditedExpenseRow) : List PlanItem :=
  edited.foldl (appendIfSome (savePlannedRow month snapshot)) []

/-- Modelled from the spec (§4.3 step 3 and claim C3): the same rewrite but
with the pre-edit `IsPaid`/`DatePaid` looked up by the TRIPLE
`(itemName, category, amount)`, as the specification describes. -/
def lookupPriorItemByTriple (snapshot : List PlanItem) (name category : String)
    (amt : ℚ) : Option PlanItem :=
  snapshot.find? (fun it =>
    decide (it.itemName = name ∧ it.category = category ∧ it.amount = amt))

/-- Modelled from the spec (§4.3 step 3 and claim C3): spec-side variant of
`savePlannedRow` using the triple key. -/
def savePlannedRowSpec (month : Date) (snapshot : List PlanItem)
    (row : EditedExpenseRow) : Option PlanItem :=
  match row.itemName, row.amount with
  | some name, some amt =>
      if amt > 0 then
        match lookupPriorItemByTriple snapshot name row.category amt with
        | some it => some ⟨month, "Expense", name, amt, row.category, it.isPaid, it.datePaid⟩
        | none => some ⟨month, "Expense", name, amt, row.category, false, none⟩
      else none
  | _, _ => none

/-- Modelled from the spec: the rewrite loop under the triple key. -/
def savePlannedExpenseRowsSpec (month : Date) (snapshot : List PlanItem)
    (edited : List EditedExpenseRow) : List PlanItem :=
  edited.foldl (appendIfSome (savePlannedRowSpec month snapshot)) []

/-- A row of the actionable-expenses `data_editor` of the
Update-Payment-Status handler (all cells present, only `IsPaid` editable). -/
structure ActionRow where
  itemName : String
  amount : ℚ
  category : String
  isPaid : Bool
deriving DecidableEq, Repr

/-- The `mask` of the Update-Payment-Status handler: current month-year,
Expense type, and the row's `(ItemName, Category, Amount)` triple. -/
@[reducible] def paymentMask (today : DateTime) (r : ActionRow) (it : PlanItem) : Prop :=
  it.monthYear.year = today.year ∧ it.monthYear.month = today.month ∧
  it.itemType = "Expense" ∧ it.itemName = r.itemName ∧
  it.category = r.category ∧ it.amount = r.amount

/-- One iteration of the Update-Payment-Status loop: when the editor row is
checked paid and the first masked plan row is still unpaid, every masked row
is set to `IsPaid = true, DatePaid = now`.  (In the app the mask is never
empty — the editor rows come from the plans table — so the `none` branch,
an `IndexError` in the source, is modelled as a no-op.) -/
def updatePaymentRow (today now : DateTime) (plans : List PlanItem)
    (r : ActionRow) : List PlanItem :=
  if r.isPaid then
    match (plans.filter (fun it => decide (paymentMask today r it))).head? with
    | some first =>
        if first.isPaid then plans
        else plans.map (fun it =>
          if paymentMask today r it then { it with isPaid := true, datePaid := some now }
          else it)
    | none => plans
  else plans

/-- The Update-Payment-Status handler's loop over the edited actionable
rows. -/
def updatePaymentStatus (today now : DateTime) (plans : List PlanItem)
    (edited : List ActionRow) : List PlanItem :=
  edited.foldl (updatePaymentRow today now) plans

/-! ### Form submit handlers (validation behaviour) -/

/-- The fields of the tab1 entry form. -/
structure EntryForm where
  date : Date
  entryType : String
  category : String
  amount : ℚ
  note : String
deriving DecidableEq, Repr

/-- The tab1 entry-form submit handler: `if submitted:` appends the row
unconditionally (no name field exists, the amount is not validated; the
widget only enforces `min_value = 0.0`). -/
def entry_form_submit (table : List Txn) (f : EntryForm) : List Txn :=
  table ++ [⟨f.date, f.entryType, f.category, f.amount, f.note⟩]

/-- The tab2 add-fixed-expense submit handler: appends only when the name is
non-empty and the amount positive, otherwise shows a warning (`Bool` result:
whether the inline warning was shown). -/
def add_fixed_expense_submit (table : List FixedExpense) (name : String)
    (amount : ℚ) : List FixedExpense × Bool :=
  if name ≠ "" ∧ amount > 0 then (table ++ [⟨name, amount⟩], false)
  else (table, true)

/-- The sidebar add-goal submit handler: appends (with `CurrentSaved = 0` and
the add-form required-saving preview) only when the name is non-empty, the
amount positive and a target date present; otherwise it does nothing — there
is no warning branch (`Bool` result: whether a warning was shown). -/
def add_goal_submit (table : List SavedGoalRow) (today : Date) (name : String)
    (amount : ℚ) (emoji : String) (targetDate : Option Date) (freq : String) :
    List SavedGoalRow × Bool :=
  match targetDate with
  | some td =>
      if name ≠ "" ∧ amount > 0 then
        (table ++ [⟨name, amount, emoji, 0, td, freq,
          addFormSavingAmountPerFreq amount freq (dateDiffDays td today)⟩], false)
      else (table, false)
  | none => (table, false)

/-! ## Theorems -/

/-- Shared shape of the rewrite loops: folding append-if-some is `filterMap`. -/
theorem foldl_append_eq_filterMap {α β : Type} (f : α → Option β) :
    ∀ (l : List α) (acc : List β),
      l.foldl (appendIfSome f) acc = acc ++ l.filterMap f := by
  intro l
  induction l with
  | nil => intro acc; simp
  | cons a l ih =>
      intro acc
      cases h : f a with
      | none => simp [List.foldl_cons, appendIfSome, h, ih, List.filterMap_cons]
      | some b => simp [List.foldl_cons, appendIfSome, h, ih, List.filterMap_cons]

/-- The Save-Planned-Expenses loop is the `filterMap` of its row body. -/
theorem savePlannedExpenseRows_eq (month : Date) (snapshot : List PlanItem)
    (edited : List EditedExpenseRow) :
    savePlannedExpenseRows month snapshot edited
      = edited.filterMap (savePlannedRow month snapshot) := by
  unfold savePlannedExpenseRows
  simpa using foldl_append_eq_filterMap (savePlannedRow month snapshot) edited []

/-- The Save-Goal-Edits loop is the `filterMap` of its row body. -/
theorem saveGoalEdits_eq (today : Date) (rows : List GoalRow) :
    saveGoalEdits today rows = rows.filterMap (saveGoalRow today) := by
  unfold saveGoalEdits
  simpa using foldl_append_eq_filterMap (saveGoalRow today) rows []

/-- Any balance and any today give a nonnegative suggested daily spend. -/
theorem suggestedDailySpend_nonneg (balance : ℚ) (today : DateTime) :
    0 ≤ suggestedDailySpend balance today := by
  unfold suggestedDailySpend
  by_cases hs : balance / (clampedDaysUntilPayday today : ℚ) < 0
  · simp [hs]
  · simp only [hs, if_false]
    exact not_lt.mp hs

/-- C1: the aggregation computes income as the sum of Income amounts, expense
as the sum of Expense amounts, `balance = income - expense`,
`remainingAfterFixed = balance - sum(fixedExpenses)`, and on an empty ledger
with an empty fixed-expense list every output is zero. -/
theorem dashboard_aggregation_correct (ledger : List Txn)
    (fixed : List FixedExpense) (today : DateTime) :
    (calculate_dashboard_metrics ledger fixed today).income
        = ((ledger.filter (fun e => e.ttype = "Income")).map (·.amount)).sum ∧
    (calculate_dashboard_metrics ledger fixed today).expense
        = ((ledger.filter (fun e => e.ttype = "Expense")).map (·.amount)).sum ∧
    (calculate_dashboard_metrics ledger fixed today).balance
        = (calculate_dashboard_metrics ledger fixed today).income
            - (calculate_dashboard_metrics ledger fixed today).expense ∧
    (calculate_dashboard_metrics ledger fixed today).remainingAfterFixed
        = (calculate_dashboard_metrics ledger fixed today).balance
            - (fixed.map (·.amount)).sum ∧
    (ledger = [] → fixed = [] →
        calculate_dashboard_metrics ledger fixed today
          = ⟨0, 0, 0, 0, 0, 0⟩) := by
  unfold calculate_dashboard_metrics
  by_cases hl : ledger = [] <;> by_cases hf : fixed = [] <;>
    simp [hl, hf, suggestedDailySpend, DashboardMetrics.mk.injEq]

/-- C2: the payday anchor is day 25 of the next month (December rolling into
January of the next year) when today's day-of-month exceeds 25, and day 25 of
the current month otherwise, including on the 25th itself. -/
theorem payday_anchor_rule (today : DateTime) :
    (today.day > 25 →
        (today.month = 12 → paydayAnchor today = ⟨today.year + 1, 1, 25⟩) ∧
        (today.month ≠ 12 → paydayAnchor today = ⟨today.year, today.month + 1, 25⟩)) ∧
    (today.day ≤ 25 → paydayAnchor today = ⟨today.year, today.month, 25⟩) := by
  unfold paydayAnchor
  refine ⟨fun h => ⟨fun h12 => ?_, fun h12 => ?_⟩, fun h => ?_⟩
  · rw [if_pos h, if_pos h12]
  · rw [if_pos h, if_neg h12]
  · rw [if_neg (by omega)]

/-- Witness for C2: rollover on December 26, plain next month on June 26, and
no rollover on the 25th itself. -/
theorem payday_anchor_rule_witness :
    paydayAnchor ⟨2024, 12, 26, 0⟩ = ⟨2025, 1, 25⟩ ∧
    paydayAnchor ⟨2024, 6, 26, 0⟩ = ⟨2024, 7, 25⟩ ∧
    paydayAnchor ⟨2024, 6, 25, 0⟩ = ⟨2024, 6, 25⟩ :=
  ⟨((payday_anchor_rule ⟨2024, 12, 26, 0⟩).1 (by decide)).1 (by decide),
   ((payday_anchor_rule ⟨2024, 6, 26, 0⟩).1 (by decide)).2 (by decide),
   (payday_anchor_rule ⟨2024, 6, 25, 0⟩).2 (by decide)⟩

/-- C6: a nonpositive day-count is clamped to 1 (so the divisor is positive),
a negative quotient is clamped to 0, and the suggested daily spend is
nonnegative for every balance, ledger, fixed-expense list and today. -/
theorem suggested_daily_never_negative (balance : ℚ) (today : DateTime)
    (ledger : List Txn) (fixed : List FixedExpense) :
    (daysUntilPayday today ≤ 0 → clampedDaysUntilPayday today = 1) ∧
    0 < clampedDaysUntilPayday today ∧
    (balance / (clampedDaysUntilPayday today : ℚ) < 0 →
        suggestedDailySpend balance today = 0) ∧
    0 ≤ suggestedDailySpend balance today ∧
    0 ≤ (calculate_dashboard_metrics ledger fixed today).suggestedDaily := by
  refine ⟨fun h => by simp [clampedDaysUntilPayday, h], ?_, fun h => ?_, ?_, ?_⟩
  · unfold clampedDaysUntilPayday
    by_cases h : daysUntilPayday today ≤ 0
    · simp [h]
    · simp only [h, if_false]
      omega
  · unfold suggestedDailySpend
    simp [h]
  · exact suggestedDailySpend_nonneg balance today
  · unfold calculate_dashboard_metrics
    exact suggestedDailySpend_nonneg _ today

/-- Witness for C6: on the 25th at noon the raw day-count is `-1` and gets
clamped to 1, and a negative balance yields a suggested spend of exactly 0. -/
theorem suggested_daily_never_negative_witness :
    daysUntilPayday ⟨2024, 12, 25, 43200000000⟩ ≤ 0 ∧
    clampedDaysUntilPayday ⟨2024, 12, 25, 43200000000⟩ = 1 ∧
    suggestedDailySpend (-5) ⟨2024, 12, 25, 43200000000⟩ = 0 ∧
    0 ≤ suggestedDailySpend (-5) ⟨2024, 12, 25, 43200000000⟩ := by
  have h := suggested_daily_never_negative (-5) ⟨2024, 12, 25, 43200000000⟩ [] []
  have hc : clampedDaysUntilPayday ⟨2024, 12, 25, 43200000000⟩ = 1 := h.1 (by decide)
  exact ⟨by decide, hc, h.2.2.1 (by rw [hc]; norm_num), h.2.2.2.1⟩

/-- Witness for C1: on an empty ledger and empty fixed-expense list every
dashboard output is zero. -/
theorem dashboard_aggregation_correct_witness :
    calculate_dashboard_metrics ([] : List Txn) [] ⟨2025, 1, 10, 0⟩
      = ⟨0, 0, 0, 0, 0, 0⟩ :=
  (dashboard_aggregation_correct [] [] ⟨2025, 1, 10, 0⟩).2.2.2.2 rfl rfl

/-- C5: the recomputed required amount per frequency is 0 when the goal is
met or the target date is not in the future; otherwise it is
`remaining / days` for Daily, `remaining / (days / 7)` for Weekly and
`remaining / (days / 30.44)` for Monthly, with
`days = targetDate - today` in whole days. -/
theorem required_per_frequency_rule (goalAmount currentSaved : ℚ)
    (freq : String) (target todayD : Date) :
    (currentSaved ≥ goalAmount ∨ dateDiffDays target todayD ≤ 0 →
        recomputeSavingAmountPerFreq goalAmount currentSaved freq
          (dateDiffDays target todayD) = 0) ∧
    (goalAmount > currentSaved → 0 < dateDiffDays target todayD →
        (freq = "Daily" →
            recomputeSavingAmountPerFreq goalAmount currentSaved freq
                (dateDiffDays target todayD)
              = (goalAmount - currentSaved) / ((dateDiffDays target todayD : Int) : ℚ)) ∧
        (freq = "Weekly" →
            recomputeSavingAmountPerFreq goalAmount currentSaved freq
                (dateDiffDays target todayD)
              = (goalAmount - currentSaved)
                  / (((dateDiffDays target todayD : Int) : ℚ) / 7)) ∧
        (freq = "Monthly" →
            recomputeSavingAmountPerFreq goalAmount currentSaved freq
                (dateDiffDays target todayD)
              = (goalAmount - currentSaved)
                  / (((dateDiffDays target todayD : Int) : ℚ) / (3044 / 100)))) := by
  constructor
  · intro h
    unfold recomputeSavingAmountPerFreq
    rw [if_neg]
    rintro ⟨h1, h2⟩
    rcases h with h | h
    · exact absurd h2 (not_lt.mpr h)
    · exact absurd h1 (not_lt.mpr h)
  · intro hgt hpos
    have hcond : dateDiffDays target todayD > 0 ∧ goalAmount > currentSaved :=
      ⟨hpos, hgt⟩
    have hcast : (0 : ℚ) < ((dateDiffDays target todayD : Int) : ℚ) := by
      exact_mod_cast hpos
    refine ⟨fun hf => ?_, fun hf => ?_, fun hf => ?_⟩ <;> subst hf <;>
      unfold recomputeSavingAmountPerFreq <;> rw [if_pos hcond]
    · rw [if_pos rfl]
    · rw [if_neg (by decide), if_pos rfl,
        if_pos (div_pos hcast (by norm_num))]
    · rw [if_neg (by decide), if_neg (by decide), if_pos rfl,
        if_pos (div_pos hcast (by norm_num))]

/-- Witness for C5: the spec scenario — target 10000, saved 2500, due in 100
days, Weekly — requires exactly 525 per week. -/
theorem required_per_frequency_rule_witness :
    dateDiffDays ⟨2024, 4, 10⟩ ⟨2024, 1, 1⟩ = 100 ∧
    recomputeSavingAmountPerFreq 10000 2500 "Weekly"
        (dateDiffDays ⟨2024, 4, 10⟩ ⟨2024, 1, 1⟩) = 525 := by
  have hd : dateDiffDays ⟨2024, 4, 10⟩ ⟨2024, 1, 1⟩ = 100 := by decide
  have h := ((required_per_frequency_rule 10000 2500 "Weekly"
      ⟨2024, 4, 10⟩ ⟨2024, 1, 1⟩).2 (by norm_num) (by rw [hd]; norm_num)).2.1 rfl
  rw [hd] at h
  refine ⟨hd, ?_⟩
  rw [hd, h]
  norm_num

/-- The add-goal form's required-saving preview agrees with the
Save-Goal-Edits recomputation at `CurrentSaved = 0` (the two Monthly
zero-guards differ, but are unreachable when the day count is positive). -/
theorem addForm_eq_recompute_at_zero (goalAmount : ℚ) (freq : String)
    (days : Int) :
    addFormSavingAmountPerFreq goalAmount freq days
      = recomputeSavingAmountPerFreq goalAmount 0 freq days := by
  unfold addFormSavingAmountPerFreq recomputeSavingAmountPerFreq
  by_cases hc : days > 0 ∧ goalAmount > 0
  · rw [if_pos hc, if_pos hc]
    have hd : (0 : ℚ) < ((days : Int) : ℚ) := by exact_mod_cast hc.1
    rw [sub_zero]
    by_cases h1 : freq = "Daily"
    · rw [if_pos h1, if_pos h1]
    · rw [if_neg h1, if_neg h1]
      by_cases h2 : freq = "Weekly"
      · rw [if_pos h2, if_pos h2]
      · rw [if_neg h2, if_neg h2]
        by_cases h3 : freq = "Monthly"
        · rw [if_pos h3, if_pos h3,
            if_pos (div_pos hd (by norm_num)), if_pos (div_pos hd (by norm_num))]
        · rw [if_neg h3, if_neg h3]
  · rw [if_neg hc, if_neg hc]

/-- C7: the displayed goal progress equals
`clamp(currentSaved / targetAmount * 100, 0, 100)` (with `x / 0 = 0`), always
lies in `[0, 100]`, and is 0 when the target amount is 0. -/
theorem goal_progress_clamped (saved amount : ℚ) (hsaved : 0 ≤ saved) :
    progressPercent saved amount = min 100 (max 0 (saved / amount * 100)) ∧
    0 ≤ progressPercent saved amount ∧
    progressPercent saved amount ≤ 100 ∧
    (amount = 0 → progressPercent saved amount = 0) := by
  have hclamp : progressPercent saved amount
      = min 100 (max 0 (saved / amount * 100)) := by
    unfold progressPercent
    by_cases h : amount > 0
    · simp [h]
    · rw [if_neg h]
      have hle : amount ≤ 0 := not_lt.mp h
      have hmul : saved / amount * 100 ≤ 0 := by
        have hdiv : saved / amount ≤ 0 := div_nonpos_iff.mpr (Or.inl ⟨hsaved, hle⟩)
        nlinarith
      simp [max_eq_left hmul]
  refine ⟨hclamp, ?_, ?_, fun h0 => ?_⟩
  · rw [hclamp]
    exact le_min (by norm_num) (le_max_left 0 _)
  · rw [hclamp]
    exact min_le_left _ _
  · rw [hclamp, h0]
    norm_num

/-- Witness for C7: a zero target amount yields progress 0 (no division
error), and saved 2500 of 10000 yields progress 25, inside `[0, 100]`. -/
theorem goal_progress_clamped_witness :
    progressPercent 2500 0 = 0 ∧
    progressPercent 2500 10000 = 25 ∧
    0 ≤ progressPercent 2500 10000 ∧
    progressPercent 2500 10000 ≤ 100 := by
  have h0 := goal_progress_clamped 2500 0 (by norm_num)
  have h := goal_progress_clamped 2500 10000 (by norm_num)
  refine ⟨h0.2.2.2 rfl, ?_, h.2.1, h.2.2.1⟩
  rw [h.1]
  norm_num

/-- C4: the projection of the fixed-expense list into a month bucket adds a
synthetic row only when no `(ItemName, Category = "Fixed Expense")` match
exists, so merging the same fixed-expense list twice yields the same item
list as merging it once. -/
theorem merge_fixed_into_bucket_idempotent (month : Date)
    (existing : List PlanItem) (fixedList : List FixedExpense) :
    mergeFixedIntoBucket month (mergeFixedIntoBucket month existing fixedList)
        fixedList
      = mergeFixedIntoBucket month existing fixedList := by
  unfold mergeFixedIntoBucket
  have h : fixedExpensesToAdd month
      (existing ++ fixedExpensesToAdd month existing fixedList) fixedList = [] := by
    unfold fixedExpensesToAdd
    rw [List.filterMap_eq_nil_iff]
    intro f hf
    by_cases hm : ∃ it ∈ existing, it.itemName = f.name ∧ it.category = "Fixed Expense"
    · rw [if_pos]
      obtain ⟨it, hit, hprop⟩ := hm
      exact ⟨it, List.mem_append_left _ hit, hprop⟩
    · rw [if_pos]
      refine ⟨⟨month, "Expense", f.name, f.amount, "Fixed Expense", false, none⟩,
        List.mem_append_right _ ?_, rfl, rfl⟩
      rw [List.mem_filterMap]
      exact ⟨f, hf, by rw [if_neg hm]⟩
  rw [h, List.append_nil]

/-- C10: the Save-Goal-Edits rewrite keeps exactly the edited rows whose
`GoalName`, `GoalAmount` and `TargetDate` are all present, in order, each
with its required saving amount recomputed; rows missing any of the three
are dropped. -/
theorem goal_save_keeps_exactly_complete_rows (today : Date)
    (rows : List GoalRow) :
    saveGoalEdits today rows
      = (rows.filter (fun r =>
            r.goalName.isSome && r.goalAmount.isSome && r.targetDate.isSome)).map
          (goalRowTransform today) := by
  rw [saveGoalEdits_eq]
  induction rows with
  | nil => rfl
  | cons r rows ih =>
      cases hn : r.goalName <;> cases ha : r.goalAmount <;> cases ht : r.targetDate <;>
        simp [List.filterMap_cons, List.filter_cons, saveGoalRow, goalRowTransform,
          hn, ha, ht, ih]

/-- Counterexample for C3: the Save-Planned-Expenses handler keys the
paid-status lookup on `(ItemName, Category)` only; a variant keyed on the
triple `(ItemName, Category, Amount)`, as claimed, behaves differently on an
edited row whose amount changed (100 → 200) on a paid item. -/
theorem plan_save_triple_key_counterexample :
    savePlannedExpenseRows ⟨2025, 2, 1⟩
        [⟨⟨2025, 2, 1⟩, "Expense", "Rent", 100, "Housing", true,
          some ⟨2025, 1, 25, 0⟩⟩]
        [⟨some "Rent", some 200, "Housing", false⟩]
      ≠ savePlannedExpenseRowsSpec ⟨2025, 2, 1⟩
        [⟨⟨2025, 2, 1⟩, "Expense", "Rent", 100, "Housing", true,
          some ⟨2025, 1, 25, 0⟩⟩]
        [⟨some "Rent", some 200, "Housing", false⟩] := by
  decide

/-- C3 as amended: the pre-edit `IsPaid`/`DatePaid` of an edited row are
looked up by the PAIR `(ItemName, Category)` — the amount is not part of the
key — against the bucket's prior snapshot (first match wins), and when a
match is found both fields are carried forward unchanged into the rewritten
bucket row; with no match they reset to unpaid. -/
theorem plan_save_carries_paid_by_pair (month : Date) (snapshot : List PlanItem)
    (edited : List EditedExpenseRow) (name : String) (amt : ℚ) (cat : String)
    (b : Bool)
    (hmem : (⟨some name, some amt, cat, b⟩ : EditedExpenseRow) ∈ edited)
    (hpos : amt > 0) :
    (∀ it, lookupPriorItem snapshot name cat = some it →
        (⟨month, "Expense", name, amt, cat, it.isPaid, it.datePaid⟩ : PlanItem)
          ∈ savePlannedExpenseRows month snapshot edited) ∧
    (lookupPriorItem snapshot name cat = none →
        (⟨month, "Expense", name, amt, cat, false, none⟩ : PlanItem)
          ∈ savePlannedExpenseRows month snapshot edited) := by
  constructor
  · intro it hit
    rw [savePlannedExpenseRows_eq, List.mem_filterMap]
    exact ⟨⟨some name, some amt, cat, b⟩, hmem, by simp [savePlannedRow, hpos, hit]⟩
  · intro hnone
    rw [savePlannedExpenseRows_eq, List.mem_filterMap]
    exact ⟨⟨some name, some amt, cat, b⟩, hmem, by simp [savePlannedRow, hpos, hnone]⟩

/-- Witness for the amended C3: a paid prior item keeps `IsPaid`/`DatePaid`
through a save whose edited row matches on name and category but changed the
amount. -/
theorem plan_save_carries_paid_by_pair_witness :
    (⟨⟨2025, 2, 1⟩, "Expense", "Rent", 200, "Housing", true,
        some ⟨2025, 1, 25, 0⟩⟩ : PlanItem)
      ∈ savePlannedExpenseRows ⟨2025, 2, 1⟩
          [⟨⟨2025, 2, 1⟩, "Expense", "Rent", 100, "Housing", true,
            some ⟨2025, 1, 25, 0⟩⟩]
          [⟨some "Rent", some 200, "Housing", false⟩] := by
  have h := (plan_save_carries_paid_by_pair ⟨2025, 2, 1⟩
      [⟨⟨2025, 2, 1⟩, "Expense", "Rent", 100, "Housing", true,
        some ⟨2025, 1, 25, 0⟩⟩]
      [⟨some "Rent", some 200, "Housing", false⟩]
      "Rent" 200 "Housing" false (by simp) (by norm_num)).1
      ⟨⟨2025, 2, 1⟩, "Expense", "Rent", 100, "Housing", true,
        some ⟨2025, 1, 25, 0⟩⟩ (by decide)
  exact h

/-- Each iteration of the Update-Payment-Status loop leaves a plan row
unchanged or sets it to paid-now. -/
theorem updatePaymentRow_step (today now : DateTime) (plans : List PlanItem)
    (r : ActionRow) :
    List.Forall₂
      (fun a b => b = a ∨ b = { a with isPaid := true, datePaid := some now })
      plans (updatePaymentRow today now plans r) := by
  unfold updatePaymentRow
  by_cases hp : r.isPaid
  · rw [if_pos hp]
    cases hh : (plans.filter fun it => decide (paymentMask today r it)).head? with
    | none => exact List.forall₂_same.mpr fun x _ => Or.inl rfl
    | some first =>
        by_cases hfp : first.isPaid
        · simp only [hfp, if_true]
          exact List.forall₂_same.mpr fun x _ => Or.inl rfl
        · simp only [Bool.not_eq_true] at hfp
          simp only [hfp, Bool.false_eq_true, if_false, List.forall₂_map_right_iff]
          refine List.forall₂_same.mpr fun it _ => ?_
          by_cases hm : paymentMask today r it
          · rw [if_pos hm]
            exact Or.inr rfl
          · rw [if_neg hm]
            exact Or.inl rfl
  · rw [if_neg hp]
    exact List.forall₂_same.mpr fun x _ => Or.inl rfl

/-- The leave-or-set-paid-now relation composes across loop iterations. -/
theorem forall₂_paystep_trans (now : DateTime) :
    ∀ {l1 l2 l3 : List PlanItem},
      List.Forall₂
        (fun a b => b = a ∨ b = { a with isPaid := true, datePaid := some now })
        l1 l2 →
      List.Forall₂
        (fun a b => b = a ∨ b = { a with isPaid := true, datePaid := some now })
        l2 l3 →
      List.Forall₂
        (fun a b => b = a ∨ b = { a with isPaid := true, datePaid := some now })
        l1 l3 := by
  intro l1 l2 l3 h12 h23
  induction h12 generalizing l3 with
  | nil =>
      cases h23
      exact List.Forall₂.nil
  | cons hab h' ih =>
      cases h23 with
      | cons hbc h'' =>
          refine List.Forall₂.cons ?_ (ih h'')
          rcases hab with rfl | rfl
          · exact hbc
          · rcases hbc with rfl | rfl
            · exact Or.inr rfl
            · exact Or.inr rfl

/-- The whole Update-Payment-Status handler leaves each plan row unchanged
or sets it to paid-now. -/
theorem updatePaymentStatus_paystep (today now : DateTime)
    (plans : List PlanItem) (edited : List ActionRow) :
    List.Forall₂
      (fun a b => b = a ∨ b = { a with isPaid := true, datePaid := some now })
      plans (updatePaymentStatus today now plans edited) := by
  unfold updatePaymentStatus
  induction edited generalizing plans with
  | nil =>
      rw [List.foldl_nil]
      exact List.forall₂_same.mpr fun x _ => Or.inl rfl
  | cons r rows ih =>
      rw [List.foldl_cons]
      exact forall₂_paystep_trans now (updatePaymentRow_step today now plans r)
        (ih (updatePaymentRow today now plans r))

/-- C8: the payment-activation handler never turns a paid row unpaid and
stamps `DatePaid = now` on any row it newly marks paid; and the
Save-Planned-Expenses reconciliation, when its edited rows still contain a
prior item's `(ItemName, Category)` key, writes that item's `IsPaid = true`
and `DatePaid` forward unchanged. -/
theorem paid_status_monotonic (today now : DateTime) (plans : List PlanItem)
    (edited : List ActionRow) (month : Date) (snapshot : List PlanItem)
    (editedRows : List EditedExpenseRow) (it : PlanItem) (amt : ℚ) (b : Bool)
    (d : DateTime) :
    List.Forall₂
      (fun a c => (a.isPaid = true → c.isPaid = true) ∧
        (a.isPaid = false → c.isPaid = true → c.datePaid = some now))
      plans (updatePaymentStatus today now plans edited) ∧
    (lookupPriorItem snapshot it.itemName it.category = some it →
     it.isPaid = true → it.datePaid = some d →
     (⟨some it.itemName, some amt, it.category, b⟩ : EditedExpenseRow) ∈ editedRows →
     amt > 0 →
     (⟨month, "Expense", it.itemName, amt, it.category, true, some d⟩ : PlanItem)
       ∈ savePlannedExpenseRows month snapshot editedRows) := by
  constructor
  · refine (updatePaymentStatus_paystep today now plans edited).imp ?_
    rintro a c (rfl | rfl)
    · exact ⟨fun h => h, fun ha hc => by rw [ha] at hc; cases hc⟩
    · exact ⟨fun _ => rfl, fun _ _ => rfl⟩
  · intro hlook hpaid hdate hmem hpos
    rw [savePlannedExpenseRows_eq, List.mem_filterMap]
    refine ⟨⟨some it.itemName, some amt, it.category, b⟩, hmem, ?_⟩
    simp [savePlannedRow, hpos, hlook, hpaid, hdate]

/-- Witness for C8: activating payment on a concrete unpaid row marks it
paid with `DatePaid = now` and satisfies the step relation; and a concrete
paid snapshot row keeps both fields through a reconciliation that repeats
its key. -/
theorem paid_status_monotonic_witness :
    List.Forall₂
      (fun (a c : PlanItem) => (a.isPaid = true → c.isPaid = true) ∧
        (a.isPaid = false → c.isPaid = true → c.datePaid = some ⟨2025, 1, 26, 0⟩))
      [⟨⟨2025, 1, 1⟩, "Expense", "Rent", 100, "Housing", false, none⟩]
      (updatePaymentStatus ⟨2025, 1, 26, 0⟩ ⟨2025, 1, 26, 0⟩
        [⟨⟨2025, 1, 1⟩, "Expense", "Rent", 100, "Housing", false, none⟩]
        [⟨"Rent", 100, "Housing", true⟩]) ∧
    (⟨⟨2025, 3, 1⟩, "Expense", "Water", 30, "Utilities", true,
        some ⟨2025, 2, 25, 0⟩⟩ : PlanItem)
      ∈ savePlannedExpenseRows ⟨2025, 3, 1⟩
          [⟨⟨2025, 3, 1⟩, "Expense", "Water", 25, "Utilities", true,
            some ⟨2025, 2, 25, 0⟩⟩]
          [⟨some "Water", some 30, "Utilities", false⟩] := by
  have h := paid_status_monotonic ⟨2025, 1, 26, 0⟩ ⟨2025, 1, 26, 0⟩
      [⟨⟨2025, 1, 1⟩, "Expense", "Rent", 100, "Housing", false, none⟩]
      [⟨"Rent", 100, "Housing", true⟩] ⟨2025, 3, 1⟩
      [⟨⟨2025, 3, 1⟩, "Expense", "Water", 25, "Utilities", true,
        some ⟨2025, 2, 25, 0⟩⟩]
      [⟨some "Water", some 30, "Utilities", false⟩]
      ⟨⟨2025, 3, 1⟩, "Expense", "Water", 25, "Utilities", true,
        some ⟨2025, 2, 25, 0⟩⟩ 30 false ⟨2025, 2, 25, 0⟩
  exact ⟨h.1, h.2 (by decide) rfl rfl (by simp) (by norm_num)⟩

/-- Counterexample for C9: the add-entry form performs no validation — a
submission with a non-positive (zero) amount is appended to the
transactions table — and the add-goal form rejects an empty name without
showing any warning. -/
theorem form_validation_counterexample :
    entry_form_submit [] ⟨⟨2025, 1, 10⟩, "Expense", "Others", 0, ""⟩
      = [⟨⟨2025, 1, 10⟩, "Expense", "Others", 0, ""⟩] ∧
    entry_form_submit [] ⟨⟨2025, 1, 10⟩, "Expense", "Others", 0, ""⟩ ≠ [] ∧
    (add_goal_submit [] ⟨2025, 1, 10⟩ "" 100 "💰" (some ⟨2026, 1, 10⟩)
        "Daily").2 = false := by
  refine ⟨rfl, ?_, ?_⟩
  · simp [entry_form_submit]
  · simp [add_goal_submit]

/-- C9 as amended: on an empty name or non-positive amount the
add-fixed-expense form rejects the submission before any write and shows
the inline warning, the add-goal form rejects it before any write but shows
no warning, and the add-entry form (which has no name field) appends the
row regardless of the amount. -/
theorem form_validation_amended (tf : List FixedExpense) (tg : List SavedGoalRow)
    (tt : List Txn) (today : Date) (name : String) (amount : ℚ) (emoji : String)
    (td : Option Date) (freq : String) (f : EntryForm) :
    (name = "" ∨ amount ≤ 0 →
        add_fixed_expense_submit tf name amount = (tf, true) ∧
        add_goal_submit tg today name amount emoji td freq = (tg, false)) ∧
    entry_form_submit tt f
      = tt ++ [⟨f.date, f.entryType, f.category, f.amount, f.note⟩] := by
  constructor
  · intro h
    have hcond : ¬(name ≠ "" ∧ amount > 0) := by
      rintro ⟨hn, ha⟩
      rcases h with h | h
      · exact hn h
      · exact absurd ha (not_lt.mpr h)
    constructor
    · unfold add_fixed_expense_submit
      rw [if_neg hcond]
    · unfold add_goal_submit
      cases td with
      | none => rfl
      | some d => simp only [if_neg hcond]
  · rfl

/-- Witness for the amended C9: an empty name is rejected with a warning by
the fixed-expense form, rejected silently by the goal form, and a zero
amount is appended unchecked by the entry form. -/
theorem form_validation_amended_witness :
    add_fixed_expense_submit [] "" 50 = ([], true) ∧
    add_goal_submit [] ⟨2025, 1, 10⟩ "" 50 "💰" (some ⟨2026, 1, 10⟩) "Daily"
      = ([], false) ∧
    entry_form_submit [] ⟨⟨2025, 1, 10⟩, "Income", "Salary", 0, "x"⟩
      = [⟨⟨2025, 1, 10⟩, "Income", "Salary", 0, "x"⟩] := by
  have h := form_validation_amended [] [] [] ⟨2025, 1, 10⟩ "" 50 "💰"
      (some ⟨2026, 1, 10⟩) "Daily" ⟨⟨2025, 1, 10⟩, "Income", "Salary", 0, "x"⟩
  exact ⟨(h.1 (Or.inl rfl)).1, (h.1 (Or.inl rfl)).2, h.2⟩

end BudgetApp
